import Mathlib

/-!
Shallow embedding of the LinDB data family (tsdb family.go in the sources)
and of the coordinator master (coordinator/master.go).

The data family keeps a mutable memtable, an optional immutable memtable
promoted for flushing, per-leader sequence maps (`seq`, `persistSeq`, the
flush-time snapshot `immutableSeq`), per-leader ack callback lists, and an
`isFlushing` admission bit.  Go maps from int32 leaders to int64 sequences
are embedded as association lists with replace-on-insert semantics; Go
int32/int64 values are embedded as `Int` (no arithmetic in the modelled
code can overflow, only comparisons and stores occur).  Callbacks are
identified by numeric ids and every invocation is recorded as an event
`(callback id, sequence value)` so that firing counts and arguments are
provable facts.  The memory database (package memdb) and the kv store are
external collaborators: their observable outcomes (row write success and
returned byte size, disk flush success) enter as parameters, exactly where
the family code consumes their return values.
-/

namespace LinDB

/-- Replication leader id (int32 in the source). -/
abbrev Leader := Int

/-- External memory database handle (package memdb), tracked through the
fields the family reads: row count `Size()`, heap size `MemSize()`,
`Uptime()`, and the one-way read-only mark. -/
structure MemDB where
  size : Int
  memSize : Int
  uptime : Int
  readOnly : Bool
  deriving DecidableEq, Repr

/-- memdb.MemoryDatabase.MarkReadOnly: one-way transition. -/
def markReadOnly (db : MemDB) : MemDB :=
  { db with readOnly := true }

/-- A metric storage row as the family sees it: the upstream `Writable`
sentinel, and the outcome of the external `memdb.WriteRow` call on it
(`some n` = success appending `n` bytes, `none` = per-row write error).
Timestamp and slot computation only feed the external write and are not
observable in any claim. -/
structure Row where
  writable : Bool
  writeSize : Option Int
  deriving DecidableEq, Repr

/-- Errors surfaced by the modelled operations. -/
inductive GoErr
  | flushWrite
  | memDBCreate
  | noStorageCluster
  | storage (code : Nat)
  deriving DecidableEq, Repr

/-- Association-list lookup for a Go `map[int32]int64` (`v, ok := m[l]`). -/
def lookupSeq : List (Leader × Int) → Leader → Option Int
  | [], _ => none
  | (k, v) :: rest, l => if k = l then some v else lookupSeq rest l

/-- Association-list store for a Go `map[int32]int64` (`m[l] = s`). -/
def insertSeq : List (Leader × Int) → Leader → Int → List (Leader × Int)
  | [], l, s => [(l, s)]
  | (k, v) :: rest, l, s =>
    if k = l then (k, s) :: rest else (k, v) :: insertSeq rest l s

/-- Lookup in the callbacks map; a missing key reads as the empty list,
matching the nil slice a Go map yields for an absent key. -/
def lookupCb : List (Leader × List Nat) → Leader → List Nat
  | [], _ => []
  | (k, v) :: rest, l => if k = l then v else lookupCb rest l

/-- `f.callbacks[leader] = append(f.callbacks[leader], fn)`. -/
def appendCb : List (Leader × List Nat) → Leader → Nat → List (Leader × List Nat)
  | [], l, id => [(l, [id])]
  | (k, v) :: rest, l, id =>
    if k = l then (k, v ++ [id]) :: rest else (k, v) :: appendCb rest l id

/-- The mutable state of a dataFamily (struct dataFamily).  The identity
fields (indicator, shard, interval, time range) play no part in any claim
and are omitted; statistics and logging are external effects. -/
structure Family where
  mutableMemDB : Option MemDB
  immutableMemDB : Option MemDB
  seq : List (Leader × Int)
  immutableSeq : Option (List (Leader × Int))
  persistSeq : List (Leader × Int)
  callbacks : List (Leader × List Nat)
  isFlushing : Bool
  deriving DecidableEq, Repr

/-- dataFamily.ValidateSequence: under the mutex, look up seq[leader];
an unknown leader validates, otherwise require seq > current. -/
def ValidateSequence (f : Family) (leader : Leader) (seq : Int) : Bool :=
  match lookupSeq f.seq leader with
  | none => true
  | some cur => decide (cur < seq)

/-- dataFamily.CommitSequence: fetch the (possibly zero-valued) atomic for
the leader, store seq into it, and write it back; the net effect is an
unconditional `f.seq[leader] = seq`. -/
def CommitSequence (f : Family) (leader : Leader) (seq : Int) : Family :=
  { f with seq := insertSeq f.seq leader seq }

/-- dataFamily.AckSequence: append the callback (identified by `id`) to
callbacks[leader]; if seq[leader] exists, invoke it once with the current
value.  The returned event list records the invocations made. -/
def AckSequence (f : Family) (leader : Leader) (id : Nat) :
    Family × List (Nat × Int) :=
  let f1 := { f with callbacks := appendCb f.callbacks leader id }
  match lookupSeq f.seq leader with
  | some v => (f1, [(id, v)])
  | none => (f1, [])

/-- dataFamily.NeedFlush.  The TTL and max heap size come from the global
storage config, passed here as parameters. -/
def NeedFlush (ttl maxMemDBSize : Int) (f : Family) : Bool :=
  if f.isFlushing then false
  else
    match f.immutableMemDB with
    | some _ => false
    | none =>
      match f.mutableMemDB with
      | none => false
      | some db =>
        if db.size ≤ 0 then false
        else if ttl ≤ db.uptime then true
        else if maxMemDBSize ≤ db.memSize then true
        else false

/-- dataFamily.MemDBSize: mutable memtable heap size, 0 when absent. -/
def MemDBSize (f : Family) : Int :=
  match f.mutableMemDB with
  | some db => db.memSize
  | none => 0

/-- The swap step of Flush (lines after the CAS, under the mutex): if an
immutable memtable is already present, or there is no mutable memtable, or
it has Size() == 0, return nothing to flush; otherwise promote the mutable
memtable (marking it read only), clear the mutable slot, and snapshot seq
into immutableSeq.  Returns the new state, the snapshot, and the promoted
memtable. -/
def flushSwap (f : Family) : Option (Family × List (Leader × Int) × MemDB) :=
  match f.immutableMemDB, f.mutableMemDB with
  | some _, _ => none
  | none, none => none
  | none, some db =>
    if db.size = 0 then none
    else
      let ro := markReadOnly db
      some ({ f with
                mutableMemDB := none
                immutableMemDB := some ro
                immutableSeq := some f.seq },
            f.seq, ro)

/-- dataFamily.flushMemoryDatabase: record each (leader, seq) in the kv
flusher, build the metric data flusher and write the memtable to disk
(`diskOk` is the outcome of those external steps); on success, invoke
every callback registered for a leader of `sequences` with that leader's
snapshot value; a close failure afterwards is logged and ignored.  Returns
the error and the callback invocation events. -/
def flushMemoryDatabase (diskOk : Bool) (sequences : List (Leader × Int))
    (cbs : List (Leader × List Nat)) : Option GoErr × List (Nat × Int) :=
  if diskOk then
    (none, sequences.flatMap fun ls => (lookupCb cbs ls.1).map fun id => (id, ls.2))
  else (some GoErr.flushWrite, [])

/-- `for leader, seq := range immutableSeq { f.seq[leader] = seq }`. -/
def restoreSeq (iseq : List (Leader × Int)) (cur : List (Leader × Int)) :
    List (Leader × Int) :=
  iseq.foldl (fun acc ls => insertSeq acc ls.1 ls.2) cur

/-- The post-write commit block of Flush (under the mutex): clear the
immutable memtable and snapshot, reassign `seq[leader] = immutableSeq[leader]`
for every snapshot entry, then for every registered callback whose leader
has an entry in seq, invoke it with the current seq value. -/
def flushCommit (iseq : List (Leader × Int)) (f : Family) :
    Family × List (Nat × Int) :=
  let newSeq := restoreSeq iseq f.seq
  let f1 := { f with
                immutableMemDB := none
                immutableSeq := none
                seq := newSeq }
  (f1,
   f1.callbacks.flatMap fun lc =>
     match lookupSeq newSeq lc.1 with
     | some s => lc.2.map fun id => (id, s)
     | none => [])

/-- dataFamily.Flush.  The CAS on isFlushing admits one flusher (a losing
caller returns nil at once); the deferred block clears isFlushing on every
exit path.  `diskOk` is the outcome of the external disk write.  Returns
the post-return state, the returned error, and all callback events fired
during the call. -/
def Flush (diskOk : Bool) (f : Family) :
    Family × Option GoErr × List (Nat × Int) :=
  if f.isFlushing then (f, none, [])
  else
    let f1 := { f with isFlushing := true }
    match flushSwap f1 with
    | none => ({ f1 with isFlushing := false }, none, [])
    | some (f2, iseq, _db) =>
      match flushMemoryDatabase diskOk iseq f2.callbacks with
      | (some e, evts) => ({ f2 with isFlushing := false }, some e, evts)
      | (none, evts1) =>
        let fc := flushCommit iseq f2
        ({ fc.1 with isFlushing := false }, none, evts1 ++ fc.2)

/-- One interleaving of Flush with a concurrent CommitSequence: the flush
thread performs the swap under the mutex and releases it for the disk
write; the writer thread then acquires the mutex and commits `(l, s)`;
the flush thread finishes.  Both mutex disciplines of the source are
respected; only the branches of Flush differ in where the commit lands
(in the no-work branches it lands after Flush returns). -/
def flushWithConcurrentCommit (diskOk : Bool) (l : Leader) (s : Int)
    (f : Family) : Family × Option GoErr × List (Nat × Int) :=
  if f.isFlushing then (CommitSequence f l s, none, [])
  else
    let f1 := { f with isFlushing := true }
    match flushSwap f1 with
    | none => (CommitSequence { f1 with isFlushing := false } l s, none, [])
    | some (f2, iseq, _db) =>
      let f2c := CommitSequence f2 l s
      match flushMemoryDatabase diskOk iseq f2c.callbacks with
      | (some e, evts) => ({ f2c with isFlushing := false }, some e, evts)
      | (none, evts1) =>
        let fc := flushCommit iseq f2c
        ({ fc.1 with isFlushing := false }, none, evts1 ++ fc.2)

/-- One row of the WriteRows loop body: a non-writable row counts a
failure and continues; otherwise the external WriteRow either appends
`writeSize` bytes or fails, which counts a failure.  Returns the updated
memtable and whether the row succeeded. -/
def writeRow (db : MemDB) (r : Row) : MemDB × Bool :=
  if r.writable then
    match r.writeSize with
    | some n => ({ db with size := db.size + 1, memSize := db.memSize + n }, true)
    | none => (db, false)
  else (db, false)

/-- The WriteRows loop over the batch: returns the final memtable and the
number of rows counted as failures. -/
def writeLoop : MemDB → List Row → MemDB × Nat
  | db, [] => (db, 0)
  | db, r :: rs =>
    let step := writeRow db r
    let rest := writeLoop step.1 rs
    (rest.1, (if step.2 then 0 else 1) + rest.2)

/-- dataFamily.WriteRows: an empty batch returns nil at once; otherwise
GetOrCreateMemoryDatabase lazily creates the mutable memtable (`newDB` is
the outcome of the external constructor, consulted only when the slot is
empty) - a creation failure drops the whole batch and returns the error;
then every row is processed and the call returns nil.  Returns the state,
the returned error, and the failed-row count. -/
def WriteRows (newDB : Option MemDB) (rows : List Row) (f : Family) :
    Family × Option GoErr × Nat :=
  if rows.isEmpty then (f, none, 0)
  else
    match f.mutableMemDB with
    | some db =>
      let res := writeLoop db rows
      ({ f with mutableMemDB := some res.1 }, none, res.2)
    | none =>
      match newDB with
      | none => (f, some GoErr.memDBCreate, rows.length)
      | some db =>
        let res := writeLoop db rows
        ({ f with mutableMemDB := some res.1 }, none, res.2)

/-- A storage cluster as the master consumes it: FlushDatabase keyed by
database name, returning that cluster's own result. -/
structure StorageCluster where
  flushResult : String → Option GoErr

/-- master state: whether this node currently holds the election lease,
and the state manager's storage clusters keyed by name. -/
structure MasterState where
  isMaster : Bool
  clusters : List (String × StorageCluster)

/-- masterpkg.StateManager.GetStorageCluster: nil when unknown. -/
def GetStorageCluster (m : MasterState) (name : String) : Option StorageCluster :=
  match m.clusters.find? (fun c => c.1 = name) with
  | some c => some c.2
  | none => none

/-- master.FlushDatabase: not master returns nil; master looks the cluster
up and fails with ErrNoStorageCluster when absent, otherwise delegates and
returns the cluster's result. -/
def FlushDatabase (m : MasterState) (cluster databaseName : String) :
    Option GoErr :=
  if m.isMaster then
    match GetStorageCluster m cluster with
    | none => some GoErr.noStorageCluster
    | some storage => storage.flushResult databaseName
  else none

/-! Concrete family states used to evaluate the modelled code on the
scenarios of the specification. -/

/-- A family holding three buffered rows with seq[1] = 5 committed and
persistSeq[1] = 0, about to be flushed while a writer is still active. -/
def c1Family : Family :=
  { mutableMemDB := some { size := 3, memSize := 100, uptime := 0, readOnly := false }
    immutableMemDB := none
    seq := [(1, 5)]
    immutableSeq := none
    persistSeq := [(1, 0)]
    callbacks := []
    isFlushing := false }

/-- The state of `c1Family` right after the swap step of Flush promoted
its memtable. -/
def c1Promoted : Family :=
  { mutableMemDB := none
    immutableMemDB := some { size := 3, memSize := 100, uptime := 0, readOnly := true }
    seq := [(1, 5)]
    immutableSeq := some [(1, 5)]
    persistSeq := [(1, 0)]
    callbacks := []
    isFlushing := true }

/-- Scenario 1 of the specification after `CommitSequence(1, 10)`:
seq[1] = 10 committed, persistSeq[1] = 0 not yet persisted. -/
def c2Family : Family :=
  { mutableMemDB := some { size := 3, memSize := 100, uptime := 0, readOnly := false }
    immutableMemDB := none
    seq := [(1, 10)]
    immutableSeq := none
    persistSeq := [(1, 0)]
    callbacks := []
    isFlushing := false }

/-- Scenario 3 of the specification before `Flush`: seq[1] = 5 committed
and one callback (id 0) registered for leader 1. -/
def c3Family : Family :=
  { mutableMemDB := some { size := 1, memSize := 10, uptime := 0, readOnly := false }
    immutableMemDB := none
    seq := [(1, 5)]
    immutableSeq := none
    persistSeq := []
    callbacks := [(1, [0])]
    isFlushing := false }

/-- A family whose only callback (id 1) belongs to leader 2, which has no
committed sequence yet; leader 1 has committed seq 5. -/
def c3bFamily : Family :=
  { mutableMemDB := some { size := 1, memSize := 10, uptime := 0, readOnly := false }
    immutableMemDB := none
    seq := [(1, 5)]
    immutableSeq := none
    persistSeq := []
    callbacks := [(2, [1])]
    isFlushing := false }

/-- A flushable family used to exercise the failed-flush path. -/
def c4Family : Family :=
  { mutableMemDB := some { size := 2, memSize := 50, uptime := 0, readOnly := false }
    immutableMemDB := none
    seq := [(1, 4)]
    immutableSeq := none
    persistSeq := [(1, 1)]
    callbacks := [(1, [0])]
    isFlushing := false }

/-- A non-flushing family over the size threshold. -/
def c5aFamily : Family :=
  { mutableMemDB := some { size := 9, memSize := 200, uptime := 1, readOnly := false }
    immutableMemDB := none
    seq := []
    immutableSeq := none
    persistSeq := []
    callbacks := []
    isFlushing := false }

/-- The same family while a flush is running. -/
def c5bFamily : Family :=
  { mutableMemDB := some { size := 9, memSize := 200, uptime := 1, readOnly := false }
    immutableMemDB := none
    seq := []
    immutableSeq := none
    persistSeq := []
    callbacks := []
    isFlushing := true }

/-- A family with seq[1] = 4 and no callbacks registered yet. -/
def c6Family : Family :=
  { mutableMemDB := none
    immutableMemDB := none
    seq := [(1, 4)]
    immutableSeq := none
    persistSeq := []
    callbacks := []
    isFlushing := false }

/-- A fresh family with an empty mutable memtable slot. -/
def c7Family : Family :=
  { mutableMemDB := none
    immutableMemDB := none
    seq := []
    immutableSeq := none
    persistSeq := []
    callbacks := []
    isFlushing := false }

/-- A family holding a writable memtable. -/
def c7bFamily : Family :=
  { mutableMemDB := some { size := 0, memSize := 0, uptime := 0, readOnly := false }
    immutableMemDB := none
    seq := []
    immutableSeq := none
    persistSeq := []
    callbacks := []
    isFlushing := false }

/-- A family with seq[1] = 5, as after scenario 1 of the specification. -/
def c8Family : Family :=
  { mutableMemDB := none
    immutableMemDB := none
    seq := [(1, 5)]
    immutableSeq := none
    persistSeq := []
    callbacks := []
    isFlushing := false }

/-- A node that lost (or never ran) the master election. -/
def idleNode : MasterState := { isMaster := false, clusters := [] }

/-- A master whose state manager knows no storage cluster. -/
def bareMaster : MasterState := { isMaster := true, clusters := [] }

/-- A storage cluster whose delegated flush fails with code 3. -/
def stormCluster : StorageCluster :=
  { flushResult := fun _ => some (GoErr.storage 3) }

/-- A master managing the single storage cluster "storm". -/
def stormMaster : MasterState :=
  { isMaster := true, clusters := [("storm", stormCluster)] }

/-- A three-row batch: one row not writable, one failing the external
write, one succeeding. -/
def rows7 : List Row :=
  [{ writable := false, writeSize := some 1 },
   { writable := true, writeSize := none },
   { writable := true, writeSize := some 4 }]

/-- A family with seq[1] = 9 used to exercise CommitSequence. -/
def c10Family : Family :=
  { mutableMemDB := none
    immutableMemDB := none
    seq := [(1, 9)]
    immutableSeq := none
    persistSeq := []
    callbacks := []
    isFlushing := false }

/-! Helper lemmas about the association-list embedding of Go maps. -/

theorem lookupSeq_insertSeq_self (m : List (Leader × Int)) (l : Leader) (s : Int) :
    lookupSeq (insertSeq m l s) l = some s := by
  induction m with
  | nil => simp [insertSeq, lookupSeq]
  | cons kv rest ih =>
    obtain ⟨k, v⟩ := kv
    by_cases h : k = l
    · simp [insertSeq, lookupSeq, h]
    · simp [insertSeq, lookupSeq, h, ih]

theorem lookupSeq_insertSeq_ne (m : List (Leader × Int)) (l l₂ : Leader)
    (s : Int) (h : l₂ ≠ l) :
    lookupSeq (insertSeq m l s) l₂ = lookupSeq m l₂ := by
  induction m with
  | nil => simp [insertSeq, lookupSeq, Ne.symm h]
  | cons kv rest ih =>
    obtain ⟨k, v⟩ := kv
    by_cases hk : k = l
    · simp [insertSeq, lookupSeq, hk, Ne.symm h]
    · simp [insertSeq, lookupSeq, hk, ih]

theorem lookupCb_appendCb_self (cbs : List (Leader × List Nat)) (l : Leader)
    (id : Nat) :
    lookupCb (appendCb cbs l id) l = lookupCb cbs l ++ [id] := by
  induction cbs with
  | nil => simp [appendCb, lookupCb]
  | cons kv rest ih =>
    obtain ⟨k, v⟩ := kv
    by_cases h : k = l
    · simp [appendCb, lookupCb, h]
    · simp [appendCb, lookupCb, h, ih]

theorem lookupCb_appendCb_ne (cbs : List (Leader × List Nat)) (l l₂ : Leader)
    (id : Nat) (h : l₂ ≠ l) :
    lookupCb (appendCb cbs l id) l₂ = lookupCb cbs l₂ := by
  induction cbs with
  | nil => simp [appendCb, lookupCb, Ne.symm h]
  | cons kv rest ih =>
    obtain ⟨k, v⟩ := kv
    by_cases hk : k = l
    · simp [appendCb, lookupCb, hk, Ne.symm h]
    · simp [appendCb, lookupCb, hk, ih]

theorem ackSequence_callbacks (f : Family) (l : Leader) (id : Nat) :
    (AckSequence f l id).1.callbacks = appendCb f.callbacks l id := by
  cases h : lookupSeq f.seq l <;> simp [AckSequence, h]

theorem writeLoop_failures (rows : List Row) (db : MemDB) :
    (writeLoop db rows).2 =
      (rows.filter fun r => !r.writable || r.writeSize.isNone).length := by
  induction rows generalizing db with
  | nil => rfl
  | cons r rs ih =>
    cases hw : r.writable with
    | false => simp [writeLoop, writeRow, hw, ih]; omega
    | true =>
      cases hs : r.writeSize with
      | none => simp [writeLoop, writeRow, hw, hs, ih]; omega
      | some n => simp [writeLoop, writeRow, hw, hs, ih]

/-! Claim theorems. -/

/-- Claim C1: the specification states that seq[leader] is monotonically
non-decreasing across every schedule, and in particular that a successful
Flush whose promotion snapshot was overtaken by a concurrent
CommitSequence(l, s) with s above the snapshot keeps the larger value.
Evaluating the code on that schedule refutes it: with seq[1] = 5 at
promotion and a concurrent CommitSequence(1, 7) landing between the swap
and the post-write commit block, the successful Flush reassigns seq[1]
back to the snapshot value 5, regressing it from 7. -/
theorem flushRegressesConcurrentlyAdvancedSeq :
    flushSwap { c1Family with isFlushing := true } =
      some (c1Promoted, [(1, 5)],
            { size := 3, memSize := 100, uptime := 0, readOnly := true }) ∧
    lookupSeq (CommitSequence c1Promoted 1 7).seq 1 = some 7 ∧
    (flushWithConcurrentCommit true 1 7 c1Family).2.1 = none ∧
    lookupSeq (flushWithConcurrentCommit true 1 7 c1Family).1.seq 1 = some 5 := by
  decide

/-- Claim C2: the specification states that a successful Flush refreshes
persistSeq[leader] to the promotion snapshot value (scenario 1 asserts
persistSeq[1] = 10 after committing 10 and flushing).  Evaluating the code
refutes it: the post-write commit block writes the snapshot into seq, not
into persistSeq, so after a successful Flush of a family with seq[1] = 10
and persistSeq[1] = 0 the value persistSeq[1] is still 0. -/
theorem flushDoesNotRefreshPersistSeq :
    (Flush true c2Family).2.1 = none ∧
    (Flush true c2Family).1.immutableMemDB = none ∧
    lookupSeq (Flush true c2Family).1.persistSeq 1 = some 0 ∧
    lookupSeq (Flush true c2Family).1.seq 1 = some 10 := by
  decide

/-- Claim C3: the specification states that during one successful Flush
each registered callback fires exactly once, and only for leaders of the
promotion snapshot.  Evaluating the code refutes both parts: with
seq[1] = 5 and one callback (id 0) for leader 1, a successful Flush fires
the callback twice with 5 (once in flushMemoryDatabase, once in the
post-write commit block); and with the only callback (id 1) on leader 2,
which is absent from the promotion snapshot but committed 9 concurrently,
the flush fires that callback with 9. -/
theorem flushFiresCallbacksTwice :
    (Flush true c3Family).2.1 = none ∧
    (Flush true c3Family).2.2 = [(0, 5), (0, 5)] ∧
    (flushWithConcurrentCommit true 2 9 c3bFamily).2.1 = none ∧
    (flushWithConcurrentCommit true 2 9 c3bFamily).2.2 = [(1, 9)] := by
  decide

/-- Claim C4: when the disk write step of Flush fails, Flush returns the
error, the promoted memtable stays in immutableMemDB (with the snapshot
still in immutableSeq for retry), isFlushing is false after the return,
seq and persistSeq are unchanged, and no callback fires. -/
theorem flushWriteFailureLeavesRecoverableState (f : Family) (db : MemDB)
    (h1 : f.isFlushing = false) (h2 : f.immutableMemDB = none)
    (h3 : f.mutableMemDB = some db) (h4 : db.size ≠ 0) :
    (Flush false f).2.1 = some GoErr.flushWrite ∧
    (Flush false f).1.immutableMemDB = some (markReadOnly db) ∧
    (Flush false f).1.immutableSeq = some f.seq ∧
    (Flush false f).1.isFlushing = false ∧
    (Flush false f).1.seq = f.seq ∧
    (Flush false f).1.persistSeq = f.persistSeq ∧
    (Flush false f).2.2 = [] := by
  simp [Flush, flushSwap, flushMemoryDatabase, h1, h2, h3, h4]

/-- Claim C4 witness: the failed-flush theorem applied to a concrete
flushable family. -/
theorem flushWriteFailureLeavesRecoverableStateCheck :
    (Flush false c4Family).2.1 = some GoErr.flushWrite ∧
    (Flush false c4Family).1.immutableMemDB =
      some (markReadOnly { size := 2, memSize := 50, uptime := 0, readOnly := false }) ∧
    (Flush false c4Family).1.immutableSeq = some c4Family.seq ∧
    (Flush false c4Family).1.isFlushing = false ∧
    (Flush false c4Family).1.seq = c4Family.seq ∧
    (Flush false c4Family).1.persistSeq = c4Family.persistSeq ∧
    (Flush false c4Family).2.2 = [] :=
  flushWriteFailureLeavesRecoverableState c4Family
    { size := 2, memSize := 50, uptime := 0, readOnly := false }
    rfl rfl rfl (by decide)

/-- Claim C5: NeedFlush returns true iff no flush is running, no immutable
memtable is pending, the mutable memtable exists and is non-empty, and the
uptime TTL or the heap-size threshold is reached; in particular it returns
false whenever isFlushing is true. -/
theorem needFlushCharacterization (ttl maxMemDBSize : Int) (f : Family) :
    (NeedFlush ttl maxMemDBSize f = true ↔
      (f.isFlushing = false ∧ f.immutableMemDB = none ∧
        ∃ db, f.mutableMemDB = some db ∧ 0 < db.size ∧
          (ttl ≤ db.uptime ∨ maxMemDBSize ≤ db.memSize))) ∧
    (f.isFlushing = true → NeedFlush ttl maxMemDBSize f = false) := by
  refine ⟨?_, fun h => by simp [NeedFlush, h]⟩
  cases hfl : f.isFlushing with
  | true => simp [NeedFlush, hfl]
  | false =>
    cases him : f.immutableMemDB with
    | some d => simp [NeedFlush, hfl, him]
    | none =>
      cases hmu : f.mutableMemDB with
      | none => simp [NeedFlush, hfl, him, hmu]
      | some db => simp [NeedFlush, hfl, him, hmu]

/-- Claim C5 witness: the characterization applied to a family over the
heap-size threshold, flushing and not. -/
theorem needFlushCharacterizationCheck :
    NeedFlush 10 100 c5aFamily = true ∧ NeedFlush 10 100 c5bFamily = false :=
  ⟨(needFlushCharacterization 10 100 c5aFamily).1.mpr
      ⟨rfl, rfl, { size := 9, memSize := 200, uptime := 1, readOnly := false },
        rfl, by decide, Or.inr (by decide)⟩,
   (needFlushCharacterization 10 100 c5bFamily).2 rfl⟩

/-- Claim C6: AckSequence appends the callback to callbacks[leader]
(leaving other leaders alone); when seq[leader] exists it invokes the
callback exactly once synchronously with the current value, and when no
entry exists it does not invoke it at registration. -/
theorem ackSequenceRegistersAndFiresOnce (f : Family) (l l₂ : Leader) (id : Nat) :
    lookupCb (AckSequence f l id).1.callbacks l = lookupCb f.callbacks l ++ [id] ∧
    (l₂ ≠ l → lookupCb (AckSequence f l id).1.callbacks l₂ = lookupCb f.callbacks l₂) ∧
    (∀ v, lookupSeq f.seq l = some v → (AckSequence f l id).2 = [(id, v)]) ∧
    (lookupSeq f.seq l = none → (AckSequence f l id).2 = []) := by
  refine ⟨?_, ?_, ?_, ?_⟩
  · rw [ackSequence_callbacks]; exact lookupCb_appendCb_self f.callbacks l id
  · intro h; rw [ackSequence_callbacks]; exact lookupCb_appendCb_ne f.callbacks l l₂ id h
  · intro v h; simp [AckSequence, h]
  · intro h; simp [AckSequence, h]

/-- Claim C6 witness: registering on a family with seq[1] = 4 appends and
fires once with 4, leaves leader 2 callbacks alone, and registering for
the uncommitted leader 2 does not fire. -/
theorem ackSequenceRegistersAndFiresOnceCheck :
    lookupCb (AckSequence c6Family 1 0).1.callbacks 1 = [0] ∧
    lookupCb (AckSequence c6Family 1 0).1.callbacks 2 = [] ∧
    (AckSequence c6Family 1 0).2 = [(0, 4)] ∧
    (AckSequence c6Family 2 1).2 = [] :=
  ⟨(ackSequenceRegistersAndFiresOnce c6Family 1 2 0).1,
   (ackSequenceRegistersAndFiresOnce c6Family 1 2 0).2.1 (by decide),
   (ackSequenceRegistersAndFiresOnce c6Family 1 2 0).2.2.1 4 rfl,
   (ackSequenceRegistersAndFiresOnce c6Family 2 1 1).2.2.2 rfl⟩

/-- Claim C7: WriteRows on an empty batch succeeds without touching any
state; a memtable creation failure fails the whole batch with every row
counted; with a memtable available the call succeeds and counts exactly
the non-writable or individually failing rows while processing the rest. -/
theorem writeRowsBatchBehavior (f : Family) (newDB : Option MemDB) (rows : List Row) :
    WriteRows newDB [] f = (f, none, 0) ∧
    (rows ≠ [] → f.mutableMemDB = none → newDB = none →
      WriteRows newDB rows f = (f, some GoErr.memDBCreate, rows.length)) ∧
    (∀ db, f.mutableMemDB = some db →
      (WriteRows newDB rows f).2.1 = none ∧
      (WriteRows newDB rows f).2.2 =
        (rows.filter fun r => !r.writable || r.writeSize.isNone).length) := by
  refine ⟨rfl, ?_, ?_⟩
  · intro hne hmu hnew
    cases rows with
    | nil => exact absurd rfl hne
    | cons r rs => simp [WriteRows, hmu, hnew]
  · intro db hmu
    cases rows with
    | nil => exact ⟨rfl, rfl⟩
    | cons r rs =>
      refine ⟨?_, ?_⟩
      · simp [WriteRows, hmu]
      · simp [WriteRows, hmu, writeLoop_failures]

/-- Claim C7 witness: the batch theorem applied to the empty batch, to a
creation failure on a fresh family, and to a mixed three-row batch. -/
theorem writeRowsBatchBehaviorCheck :
    WriteRows none [] c7Family = (c7Family, none, 0) ∧
    WriteRows none [{ writable := true, writeSize := some 8 }] c7Family =
      (c7Family, some GoErr.memDBCreate, 1) ∧
    (WriteRows none rows7 c7bFamily).2.1 = none ∧
    (WriteRows none rows7 c7bFamily).2.2 = 2 :=
  ⟨(writeRowsBatchBehavior c7Family none []).1,
   (writeRowsBatchBehavior c7Family none
      [{ writable := true, writeSize := some 8 }]).2.1 (by decide) rfl rfl,
   ((writeRowsBatchBehavior c7bFamily none rows7).2.2
      { size := 0, memSize := 0, uptime := 0, readOnly := false } rfl).1,
   ((writeRowsBatchBehavior c7bFamily none rows7).2.2
      { size := 0, memSize := 0, uptime := 0, readOnly := false } rfl).2⟩

/-- Claim C8: ValidateSequence returns true exactly when the proposed
sequence is above the current seq[leader] if an entry exists, returns true
for every sequence when the leader is unknown, and is a pure predicate of
the state. -/
theorem validateSequencePredicate (f : Family) (l : Leader) (s : Int) :
    (∀ cur, lookupSeq f.seq l = some cur →
      (ValidateSequence f l s = true ↔ cur < s)) ∧
    (lookupSeq f.seq l = none → ValidateSequence f l s = true) ∧
    ValidateSequence f l s = ValidateSequence f l s := by
  refine ⟨?_, ?_, rfl⟩
  · intro cur h; simp [ValidateSequence, h]
  · intro h; simp [ValidateSequence, h]

/-- Claim C8 witness: on a family with seq[1] = 5, sequence 6 validates
for leader 1 and any sequence validates for the unknown leader 2. -/
theorem validateSequencePredicateCheck :
    ValidateSequence c8Family 1 6 = true ∧ ValidateSequence c8Family 2 1 = true :=
  ⟨((validateSequencePredicate c8Family 1 6).1 5 rfl).mpr (by decide),
   (validateSequencePredicate c8Family 2 1).2.1 rfl⟩

/-- Claim C9: FlushDatabase on a non-master node succeeds as a no-op; on
the master an unknown cluster fails with the no-storage-cluster error, and
a known cluster receives the delegated flush whose result is returned. -/
theorem masterFlushDatabaseDelegation (m : MasterState) (cluster databaseName : String) :
    (m.isMaster = false → FlushDatabase m cluster databaseName = none) ∧
    (m.isMaster = true → GetStorageCluster m cluster = none →
      FlushDatabase m cluster databaseName = some GoErr.noStorageCluster) ∧
    (∀ st, m.isMaster = true → GetStorageCluster m cluster = some st →
      FlushDatabase m cluster databaseName = st.flushResult databaseName) := by
  refine ⟨?_, ?_, ?_⟩
  · intro h; simp [FlushDatabase, h]
  · intro h1 h2; simp [FlushDatabase, h1, h2]
  · intro st h1 h2; simp [FlushDatabase, h1, h2]

/-- Claim C9 witness: the delegation theorem applied to a non-master node,
a master with no clusters, and a master managing one cluster. -/
theorem masterFlushDatabaseDelegationCheck :
    FlushDatabase idleNode "storm" "db" = none ∧
    FlushDatabase bareMaster "storm" "db" = some GoErr.noStorageCluster ∧
    FlushDatabase stormMaster "storm" "db" = stormCluster.flushResult "db" :=
  ⟨(masterFlushDatabaseDelegation idleNode "storm" "db").1 rfl,
   (masterFlushDatabaseDelegation bareMaster "storm" "db").2.1 rfl rfl,
   (masterFlushDatabaseDelegation stormMaster "storm" "db").2.2 stormCluster rfl rfl⟩

/-- Claim C10: CommitSequence stores the given sequence into seq[leader]
unconditionally (no comparison with the current value, entries created
for unknown leaders, smaller values overwrite larger ones), other leaders
are untouched, and afterwards ValidateSequence compares against the new
value while AckSequence fires synchronously with it. -/
theorem commitSequenceStoresUnconditionally (f : Family) (l l₂ : Leader)
    (s t : Int) (id : Nat) :
    lookupSeq (CommitSequence f l s).seq l = some s ∧
    (l₂ ≠ l → lookupSeq (CommitSequence f l s).seq l₂ = lookupSeq f.seq l₂) ∧
    ValidateSequence (CommitSequence f l s) l t = decide (s < t) ∧
    (AckSequence (CommitSequence f l s) l id).2 = [(id, s)] := by
  refine ⟨?_, ?_, ?_, ?_⟩
  · simpa [CommitSequence] using lookupSeq_insertSeq_self f.seq l s
  · intro h; simpa [CommitSequence] using lookupSeq_insertSeq_ne f.seq l l₂ s h
  · simp [ValidateSequence, CommitSequence, lookupSeq_insertSeq_self]
  · simp [AckSequence, CommitSequence, lookupSeq_insertSeq_self]

/-- Claim C10 witness: committing 3 for leader 1 on a family with
seq[1] = 9 overwrites downward to 3, leaves leader 2 absent, makes 4
validate, and makes a fresh registration fire with 3. -/
theorem commitSequenceStoresUnconditionallyCheck :
    lookupSeq (CommitSequence c10Family 1 3).seq 1 = some 3 ∧
    lookupSeq (CommitSequence c10Family 1 3).seq 2 = none ∧
    ValidateSequence (CommitSequence c10Family 1 3) 1 4 = true ∧
    (AckSequence (CommitSequence c10Family 1 3) 1 0).2 = [(0, 3)] :=
  ⟨(commitSequenceStoresUnconditionally c10Family 1 2 3 4 0).1,
   (commitSequenceStoresUnconditionally c10Family 1 2 3 4 0).2.1 (by decide),
   (commitSequenceStoresUnconditionally c10Family 1 2 3 4 0).2.2.1,
   (commitSequenceStoresUnconditionally c10Family 1 2 3 4 0).2.2.2⟩

end LinDB
